import Mathlib

set_option autoImplicit false

/-!
Verification development for the card editor component
(`src/panels/lovelace/editor/card-editor/hui-card-editor.ts`).

The component is shallowly embedded as a state machine.  JavaScript async
semantics are made explicit: an `async` method runs synchronously up to its
first `await`, at which point it suspends; the suspended continuation is kept
in a `pending` list and resumed by an explicit `resume` command (resolution
order of in-flight promises is external, so an index selects which one
resolves).  Calls to an `async` function that are not awaited (as in
`_setConfig`) return immediately after the synchronous prefix, and any
exception inside the async body is captured by the internal
`try`/`catch` of the body, never by the caller.

External collaborators (the YAML codec `safeLoad`/`safeDump`, the card
element registry `getCardElementClass`, and the concrete config elements)
are parameters in an `Env` record, per their contracts.
-/

namespace HuiCardEditor

/-- A `LovelaceCardConfig`: the `type` discriminator (absent models a missing
`type` key, i.e. `undefined` in JS), plus an abstract token for the remaining
fields.  JS `deepEqual` on plain objects is modelled by structural equality
(key order is abstracted away). -/
structure CardConfig where
  type? : Option String
  rest : Nat
  deriving DecidableEq, Repr

/-- A value stored in the `_error` slot.  The slot holds either a string
(`this._error = err.message` in the yaml setter) or a whole `Error` object
(`this._error = err` in `_updateConfigElement`); the distinction matters for
the shape of emitted notifications. -/
inductive ErrVal where
  | str (s : String)
  | obj (msg : String)
  deriving DecidableEq, Repr

/-- A mounted config element (`LovelaceCardEditor` instance).  `id`
distinguishes instances; `accepts` models its `setConfig` entry point:
`none` means it accepts, `some m` means it throws an error with message
`m`.  Its argument is the current `this.value` of the component, which can be
`undefined`. -/
structure Editor where
  id : Nat
  accepts : Option CardConfig → Option String

/-- A card element class as returned by `getCardElementClass`:
whether it exposes a static `getConfigElement`, and the element that
factory produces when awaited. -/
structure ElClass where
  hasGetConfigElement : Bool
  makeEditor : Editor

/-- The external world: the YAML codec and the card element registry.
`parse` models `safeLoad` (`Except.error m` = throws with message `m`;
`Except.ok v` = returns `v`, possibly `undefined`); `stringify` models
`safeDump`; `registry` models `getCardElementClass` (`none` = no class
found). -/
structure Env where
  parse : String → Except String (Option CardConfig)
  stringify : Option CardConfig → String
  registry : String → Option ElClass

/-- Events fired on the component: `config-changed` (the unified change
notification) and `GUImode-changed` (the mode notification). -/
inductive EditorEvent where
  | configChanged (config? : Option CardConfig) (error? : Option ErrVal) (guiModeAvailable : Bool)
  | guiModeChanged (guiMode : Bool) (guiModeAvailable : Bool)
  deriving DecidableEq, Repr

/-- A suspended continuation of `_updateConfigElement`:
`awaitClass t` is parked at `await getCardElementClass(cardType)` with
local `cardType = t`; `awaitElement t c` is parked at
`await elClass.getConfigElement()` with `elClass = c`. -/
inductive Pending where
  | awaitClass (cardType : String)
  | awaitElement (cardType : String) (elClass : ElClass)

/-- The reactive fields of the component, plus the trace of fired events and the
suspended reconciliation continuations. -/
structure EditorState where
  yaml? : Option String
  config? : Option CardConfig
  configElement? : Option Editor
  configElType? : Option String
  GUImode : Bool
  error? : Option ErrVal
  warning? : Option String
  loading : Bool
  events : List EditorEvent
  pending : List Pending

/-- `get hasWarning` -/
def hasWarning (s : EditorState) : Bool :=
  s.warning?.isSome

/-- `get hasError` -/
def hasError (s : EditorState) : Bool :=
  s.error?.isSome

/-- The `guiModeAvailable` field of both notifications:
`!(this.hasWarning || this.hasError)`. -/
def guiModeAvailable (s : EditorState) : Bool :=
  !(hasWarning s || hasError s)

/-- `set GUImode`: stores the flag and fires `GUImode-changed`. -/
def setGUImode (s : EditorState) (guiMode : Bool) : EditorState :=
  let s1 := { s with GUImode := guiMode }
  { s1 with events := s1.events ++ [EditorEvent.guiModeChanged guiMode (guiModeAvailable s1)] }

/-- `toggleMode()` -/
def toggleMode (s : EditorState) : EditorState :=
  setGUImode s (!s.GUImode)

/-- JS `String.prototype.startsWith`, at character level (every message
tested in the source is ASCII, where JS UTF-16 code units coincide with
characters). -/
def jsStartsWith (s p : String) : Bool :=
  p.toList.isPrefixOf s.toList

/-- JS `String.prototype.substr(n)`: drop the first `n` code units. -/
def jsSubstrFrom (s : String) (n : Nat) : String :=
  String.mk (s.toList.drop n)

def warnTag : String := "WARNING:"

def noTypeMsg : String := "No card type defined"

/-- The message of the `Error` thrown when no visual editor exists. -/
def noEditorMsg (t : String) : String :=
  "WARNING: No visual editor available for: " ++ t

/-- The message of the TypeError raised when `this._configElement!` is
`undefined` at the `setConfig` call. -/
def typeErrorMsg : String := "Cannot read properties of undefined"

/-- The inner catch of step 4 rethrows acceptance failures wrapped as
`Error("WARNING: " + err.message)`. -/
def warnWrap (m : String) : String :=
  "WARNING: " ++ m

/-- The `catch` block of `_updateConfigElement`: messages starting with
`WARNING:` go to `_warning` (with the first 8 characters stripped), anything
else stores the `Error` object itself in `_error`; then `this.GUImode =
false` runs through the setter and fires `GUImode-changed`. -/
def catchHandler (s : EditorState) (msg : String) : EditorState :=
  let s1 :=
    if jsStartsWith msg warnTag then
      { s with warning? := some (jsSubstrFrom msg 8) }
    else
      { s with error? := some (ErrVal.obj msg) }
  setGUImode s1 false

/-- The `finally` block: `this._loading = false`. -/
def finallyLoad (s : EditorState) : EditorState :=
  { s with loading := false }

/-- Step 4 of `_updateConfigElement` when no rebind is needed (synchronous):
`this._configElement!.setConfig(this.value)` inside the inner try, with the
outer catch and finally.  A missing element raises a TypeError, which the
inner catch also wraps as a WARNING. -/
def acceptStep (s : EditorState) : EditorState :=
  match s.configElement? with
  | none => finallyLoad (catchHandler s (warnWrap typeErrorMsg))
  | some ed =>
    match ed.accepts s.config? with
    | none => finallyLoad s
    | some m => finallyLoad (catchHandler s (warnWrap m))

/-- Resumption at `await getCardElementClass(cardType)`: the resolved class
arrives, `this._loading = true` runs, then either the code suspends again at
`await elClass.getConfigElement()`, or (no class / no `getConfigElement`)
the local `configElement` is cleared and `WARNING: No visual editor
available for: <cardType>` is thrown into the outer catch. -/
def resumeClass (env : Env) (s : EditorState) (t : String) : EditorState :=
  let s1 := { s with loading := true }
  match env.registry t with
  | some c =>
    if c.hasGetConfigElement then
      { s1 with pending := s1.pending ++ [Pending.awaitElement t c] }
    else
      finallyLoad (catchHandler s1 (noEditorMsg t))
  | none => finallyLoad (catchHandler s1 (noEditorMsg t))

/-- Resumption at `await elClass.getConfigElement()`: the new element is
committed (`this._configElement = configElement; this._configElType =
cardType`), wired up, and then step 4 forwards the *current* `this.value`
into it.  No staleness check is performed before the commit. -/
def resumeElement (s : EditorState) (t : String) (c : ElClass) : EditorState :=
  let ed := c.makeEditor
  let s1 := { s with configElement? := some ed, configElType? := some t }
  match ed.accepts s1.config? with
  | none => finallyLoad s1
  | some m => finallyLoad (catchHandler s1 (warnWrap m))

/-- The synchronous prefix of `_updateConfigElement()`:
return if `this.value` is undefined; clear `_error`/`_warning`; if the
card type differs from `_configElType`, throw `No card type defined` when
the type is falsy, otherwise suspend at the registry lookup; if the type
matches, run step 4 synchronously. -/
def updateConfigElementStart (s : EditorState) : EditorState :=
  match s.config? with
  | none => s
  | some cfg =>
    let s1 := { s with error? := none, warning? := none }
    if s1.configElType? = cfg.type? then
      acceptStep s1
    else
      match cfg.type? with
      | some t =>
        if t != "" then
          { s1 with pending := s1.pending ++ [Pending.awaitClass t] }
        else
          finallyLoad (catchHandler s1 noTypeMsg)
      | none => finallyLoad (catchHandler s1 noTypeMsg)

/-- JS truthiness of the `_error` slot as tested by `if (!this._error)`. -/
def errTruthy : Option ErrVal → Bool
  | none => false
  | some (ErrVal.str m) => m != ""
  | some (ErrVal.obj _) => true

/-- `fireEvent(this, "config-changed", { config: this.value!, error:
this._error, guiModeAvailable: !(this.hasWarning || this.hasError) })`. -/
def fireConfigChanged (s : EditorState) : EditorState :=
  { s with events := s.events ++ [EditorEvent.configChanged s.config? s.error? (guiModeAvailable s)] }

/-- `_setConfig()`: when `_error` is falsy, run `_updateConfigElement()`
(not awaited, so only its synchronous prefix happens here) and then
unconditionally overwrite `this._error = undefined`; the async call never
throws synchronously, so the `catch` in `_setConfig` is dead.  Finally fire
the change notification. -/
def setConfigNotify (s : EditorState) : EditorState :=
  if errTruthy s.error? then
    fireConfigChanged s
  else
    let s1 := updateConfigElementStart s
    fireConfigChanged { s1 with error? := none }

/-- `set yaml` (setText): store the text verbatim, try `safeLoad`; on
success replace `_config` and clear `_error`, on failure store `err.message`
in `_error` and leave `_config` alone; then `_setConfig()`. -/
def setYaml (env : Env) (s : EditorState) (t : String) : EditorState :=
  let s1 := { s with yaml? := some t }
  let s2 :=
    match env.parse t with
    | Except.ok v => { s1 with config? := v, error? := none }
    | Except.error m => { s1 with error? := some (ErrVal.str m) }
  setConfigNotify s2

/-- The guard `if (this._config && deepEqual(config, this._config)) return`. -/
def valueGuard (s : EditorState) (c? : Option CardConfig) : Bool :=
  match s.config? with
  | none => false
  | some cur => c? == some cur

/-- `set value` (setConfig): no-op when the guard fires; otherwise replace
`_config`, derive `_yaml` via `safeDump`, clear `_error`, and `_setConfig()`. -/
def setValueImpl (env : Env) (s : EditorState) (c? : Option CardConfig) : EditorState :=
  if valueGuard s c? then s
  else
    let s1 := { s with config? := c?, yaml? := some (env.stringify c?), error? := none }
    setConfigNotify s1

/-- Resolve the `i`-th in-flight await (promise resolution order is
external).  Out-of-range indices resolve nothing. -/
def resumePending (env : Env) (s : EditorState) (i : Nat) : EditorState :=
  match s.pending[i]? with
  | none => s
  | some (Pending.awaitClass t) =>
    resumeClass env { s with pending := s.pending.eraseIdx i } t
  | some (Pending.awaitElement t c) =>
    resumeElement { s with pending := s.pending.eraseIdx i } t c

/-- External stimuli of one editing session. -/
inductive Cmd where
  | setText (text : String)
  | setValue (config? : Option CardConfig)
  | uiConfigChanged (config : CardConfig)
  | toggleMode
  | resume (i : Nat)

/-- One step of the session.  An inbound `config-changed` event from the
mounted element (`_handleUIConfigChanged`) is routed into the `value`
setter. -/
def step (env : Env) (s : EditorState) : Cmd → EditorState
  | Cmd.setText t => setYaml env s t
  | Cmd.setValue c? => setValueImpl env s c?
  | Cmd.uiConfigChanged c => setValueImpl env s (some c)
  | Cmd.toggleMode => toggleMode s
  | Cmd.resume i => resumePending env s i

/-- Initial field values of a fresh `hui-card-editor`. -/
def initState : EditorState :=
  { yaml? := none, config? := none, configElement? := none, configElType? := none,
    GUImode := true, error? := none, warning? := none, loading := false,
    events := [], pending := [] }

/-- Run a whole session from the initial state. -/
def run (env : Env) (cmds : List Cmd) : EditorState :=
  cmds.foldl (step env) initState

/-- Is an event a `config-changed` (unified change) notification? -/
def isConfigChanged : EditorEvent → Bool
  | EditorEvent.configChanged _ _ _ => true
  | EditorEvent.guiModeChanged _ _ => false

/-- Number of change notifications in a trace. -/
def countConfigChanged (evs : List EditorEvent) : Nat :=
  (evs.filter isConfigChanged).length

/-- A notification whose `error` field is absent or a string (never an
`Error` object). -/
def errFieldOK : EditorEvent → Bool
  | EditorEvent.configChanged _ (some (ErrVal.obj _)) _ => false
  | _ => true

/-! ### Concrete fixtures used by counterexamples and witnesses -/

def typeA : String := "a"

def typeB : String := "b"

def typeX : String := "x"

/-- A config element that accepts every config. -/
def edA : Editor := { id := 1, accepts := fun _ => none }

/-- A card element class with a GUI editor. -/
def clsA : ElClass := { hasGetConfigElement := true, makeEditor := edA }

def cfgA : CardConfig := { type? := some typeA, rest := 0 }

def cfgB : CardConfig := { type? := some typeB, rest := 0 }

def cfgX : CardConfig := { type? := some typeX, rest := 0 }

/-- A config whose `type` key is missing. -/
def cfgNoType : CardConfig := { type? := none, rest := 0 }

def badText : String := "]"

def parseMsg : String := "unexpected end of the stream"

def dumpText : String := "dumped"

/-- A demo world: `safeLoad` fails on `badText` with message `parseMsg`,
and the registry has a visual editor only for type `a`. -/
def demoEnv : Env :=
  { parse := fun t => if t == badText then Except.error parseMsg else Except.ok none,
    stringify := fun _ => dumpText,
    registry := fun t => if t == typeA then some clsA else none }

/-! ### Helper lemmas about message classification -/

theorem jsStartsWith_append (p q r : String) (h : jsStartsWith q p = true) :
    jsStartsWith (q ++ r) p = true := by
  simp only [jsStartsWith, List.isPrefixOf_iff_prefix] at h ⊢
  have hqr : (q ++ r).toList = q.toList ++ r.toList := by
    simp [String.toList]
  rw [hqr]
  exact h.trans (List.prefix_append _ _)

theorem warnTag_noEditorMsg (t : String) :
    jsStartsWith (noEditorMsg t) warnTag = true := by
  unfold noEditorMsg
  exact jsStartsWith_append _ _ _ (by decide)

theorem warnTag_warnWrap (m : String) :
    jsStartsWith (warnWrap m) warnTag = true := by
  unfold warnWrap
  exact jsStartsWith_append _ _ _ (by decide)

theorem warnTag_noTypeMsg : jsStartsWith noTypeMsg warnTag = false := by decide

/-! ### Field bookkeeping lemmas -/

@[simp] theorem finallyLoad_config? (s : EditorState) : (finallyLoad s).config? = s.config? := rfl

@[simp] theorem finallyLoad_yaml? (s : EditorState) : (finallyLoad s).yaml? = s.yaml? := rfl

@[simp] theorem finallyLoad_error? (s : EditorState) : (finallyLoad s).error? = s.error? := rfl

@[simp] theorem finallyLoad_warning? (s : EditorState) : (finallyLoad s).warning? = s.warning? := rfl

@[simp] theorem finallyLoad_events (s : EditorState) : (finallyLoad s).events = s.events := rfl

@[simp] theorem finallyLoad_configElement? (s : EditorState) :
    (finallyLoad s).configElement? = s.configElement? := rfl

@[simp] theorem finallyLoad_configElType? (s : EditorState) :
    (finallyLoad s).configElType? = s.configElType? := rfl

@[simp] theorem finallyLoad_GUImode (s : EditorState) : (finallyLoad s).GUImode = s.GUImode := rfl

@[simp] theorem finallyLoad_pending (s : EditorState) : (finallyLoad s).pending = s.pending := rfl

@[simp] theorem setGUImode_config? (s : EditorState) (b : Bool) :
    (setGUImode s b).config? = s.config? := rfl

@[simp] theorem setGUImode_yaml? (s : EditorState) (b : Bool) :
    (setGUImode s b).yaml? = s.yaml? := rfl

@[simp] theorem setGUImode_error? (s : EditorState) (b : Bool) :
    (setGUImode s b).error? = s.error? := rfl

@[simp] theorem setGUImode_warning? (s : EditorState) (b : Bool) :
    (setGUImode s b).warning? = s.warning? := rfl

@[simp] theorem setGUImode_configElement? (s : EditorState) (b : Bool) :
    (setGUImode s b).configElement? = s.configElement? := rfl

@[simp] theorem setGUImode_configElType? (s : EditorState) (b : Bool) :
    (setGUImode s b).configElType? = s.configElType? := rfl

@[simp] theorem setGUImode_GUImode (s : EditorState) (b : Bool) :
    (setGUImode s b).GUImode = b := rfl

@[simp] theorem setGUImode_pending (s : EditorState) (b : Bool) :
    (setGUImode s b).pending = s.pending := rfl

@[simp] theorem setGUImode_events (s : EditorState) (b : Bool) :
    (setGUImode s b).events = s.events ++ [EditorEvent.guiModeChanged b (guiModeAvailable s)] := rfl

@[simp] theorem fireConfigChanged_config? (s : EditorState) :
    (fireConfigChanged s).config? = s.config? := rfl

@[simp] theorem fireConfigChanged_yaml? (s : EditorState) :
    (fireConfigChanged s).yaml? = s.yaml? := rfl

@[simp] theorem fireConfigChanged_error? (s : EditorState) :
    (fireConfigChanged s).error? = s.error? := rfl

@[simp] theorem fireConfigChanged_warning? (s : EditorState) :
    (fireConfigChanged s).warning? = s.warning? := rfl

@[simp] theorem fireConfigChanged_configElement? (s : EditorState) :
    (fireConfigChanged s).configElement? = s.configElement? := rfl

@[simp] theorem fireConfigChanged_configElType? (s : EditorState) :
    (fireConfigChanged s).configElType? = s.configElType? := rfl

@[simp] theorem fireConfigChanged_GUImode (s : EditorState) :
    (fireConfigChanged s).GUImode = s.GUImode := rfl

@[simp] theorem fireConfigChanged_pending (s : EditorState) :
    (fireConfigChanged s).pending = s.pending := rfl

@[simp] theorem fireConfigChanged_events (s : EditorState) :
    (fireConfigChanged s).events =
      s.events ++ [EditorEvent.configChanged s.config? s.error? (guiModeAvailable s)] := rfl

theorem catchHandler_config? (s : EditorState) (m : String) :
    (catchHandler s m).config? = s.config? := by
  unfold catchHandler
  split <;> rfl

theorem catchHandler_yaml? (s : EditorState) (m : String) :
    (catchHandler s m).yaml? = s.yaml? := by
  unfold catchHandler
  split <;> rfl

theorem catchHandler_configElement? (s : EditorState) (m : String) :
    (catchHandler s m).configElement? = s.configElement? := by
  unfold catchHandler
  split <;> rfl

theorem catchHandler_configElType? (s : EditorState) (m : String) :
    (catchHandler s m).configElType? = s.configElType? := by
  unfold catchHandler
  split <;> rfl

theorem catchHandler_GUImode (s : EditorState) (m : String) :
    (catchHandler s m).GUImode = false := by
  unfold catchHandler
  split <;> rfl

theorem catchHandler_pending (s : EditorState) (m : String) :
    (catchHandler s m).pending = s.pending := by
  unfold catchHandler
  split <;> rfl

/-! ### Counting change notifications -/

@[simp] theorem countConfigChanged_append (l1 l2 : List EditorEvent) :
    countConfigChanged (l1 ++ l2) = countConfigChanged l1 + countConfigChanged l2 := by
  simp [countConfigChanged, List.filter_append]

@[simp] theorem countConfigChanged_gui (b a : Bool) :
    countConfigChanged [EditorEvent.guiModeChanged b a] = 0 := rfl

@[simp] theorem countConfigChanged_one (c : Option CardConfig) (e : Option ErrVal) (g : Bool) :
    countConfigChanged [EditorEvent.configChanged c e g] = 1 := rfl

theorem catchHandler_count (s : EditorState) (m : String) :
    countConfigChanged (catchHandler s m).events = countConfigChanged s.events := by
  unfold catchHandler
  split <;> simp

theorem acceptStep_count (s : EditorState) :
    countConfigChanged (acceptStep s).events = countConfigChanged s.events := by
  unfold acceptStep
  split
  · exact catchHandler_count _ _
  · split
    · rfl
    · exact catchHandler_count _ _

theorem updateStart_count (s : EditorState) :
    countConfigChanged (updateConfigElementStart s).events = countConfigChanged s.events := by
  unfold updateConfigElementStart
  cases s.config? with
  | none => rfl
  | some cfg =>
    dsimp only
    split
    · exact acceptStep_count _
    · split
      · split
        · rfl
        · exact catchHandler_count _ _
      · exact catchHandler_count _ _

theorem setConfigNotify_count (s : EditorState) :
    countConfigChanged (setConfigNotify s).events = countConfigChanged s.events + 1 := by
  unfold setConfigNotify
  split
  · simp
  · simp [updateStart_count]

/-! ### The `error` field of emitted change notifications -/

@[simp] theorem errFieldOK_gui (b a : Bool) :
    errFieldOK (EditorEvent.guiModeChanged b a) = true := rfl

/-- `_error` values whose appearance in a change notification keeps the
`error` field of the notification a string or absent. -/
def errSlotOK : Option ErrVal → Bool
  | some (ErrVal.obj _) => false
  | _ => true

@[simp] theorem errFieldOK_config (c : Option CardConfig) (e : Option ErrVal) (g : Bool) :
    errFieldOK (EditorEvent.configChanged c e g) = errSlotOK e := by
  cases e with
  | none => rfl
  | some v => cases v <;> rfl

theorem allOK_setGUImode (s : EditorState) (b : Bool)
    (h : s.events.all errFieldOK = true) :
    (setGUImode s b).events.all errFieldOK = true := by
  simp [List.all_append, h]

theorem allOK_catchHandler (s : EditorState) (m : String)
    (h : s.events.all errFieldOK = true) :
    (catchHandler s m).events.all errFieldOK = true := by
  unfold catchHandler
  split <;> exact allOK_setGUImode _ _ h

theorem allOK_acceptStep (s : EditorState)
    (h : s.events.all errFieldOK = true) :
    (acceptStep s).events.all errFieldOK = true := by
  unfold acceptStep
  split
  · exact allOK_catchHandler _ _ h
  · split
    · exact h
    · exact allOK_catchHandler _ _ h

theorem allOK_updateStart (s : EditorState)
    (h : s.events.all errFieldOK = true) :
    (updateConfigElementStart s).events.all errFieldOK = true := by
  unfold updateConfigElementStart
  cases s.config? with
  | none => exact h
  | some cfg =>
    dsimp only
    split
    · exact allOK_acceptStep _ h
    · split
      · split
        · exact h
        · exact allOK_catchHandler _ _ h
      · exact allOK_catchHandler _ _ h

theorem allOK_fire (s : EditorState)
    (he : errSlotOK s.error? = true)
    (h : s.events.all errFieldOK = true) :
    (fireConfigChanged s).events.all errFieldOK = true := by
  simp [List.all_append, h, he]

theorem allOK_setConfigNotify (s : EditorState)
    (he : errSlotOK s.error? = true)
    (h : s.events.all errFieldOK = true) :
    (setConfigNotify s).events.all errFieldOK = true := by
  unfold setConfigNotify
  split
  · exact allOK_fire _ he h
  · exact allOK_fire _ rfl (allOK_updateStart _ h)

theorem allOK_setYaml (env : Env) (s : EditorState) (t : String)
    (h : s.events.all errFieldOK = true) :
    (setYaml env s t).events.all errFieldOK = true := by
  unfold setYaml
  cases env.parse t with
  | ok v => exact allOK_setConfigNotify _ rfl h
  | error m => exact allOK_setConfigNotify _ rfl h

theorem allOK_setValueImpl (env : Env) (s : EditorState) (c? : Option CardConfig)
    (h : s.events.all errFieldOK = true) :
    (setValueImpl env s c?).events.all errFieldOK = true := by
  unfold setValueImpl
  split
  · exact h
  · exact allOK_setConfigNotify _ rfl h

theorem allOK_resumeClass (env : Env) (s : EditorState) (t : String)
    (h : s.events.all errFieldOK = true) :
    (resumeClass env s t).events.all errFieldOK = true := by
  unfold resumeClass
  cases env.registry t with
  | none => exact allOK_catchHandler _ _ h
  | some c =>
    dsimp only
    split
    · exact h
    · exact allOK_catchHandler _ _ h

theorem allOK_resumeElement (s : EditorState) (t : String) (c : ElClass)
    (h : s.events.all errFieldOK = true) :
    (resumeElement s t c).events.all errFieldOK = true := by
  unfold resumeElement
  dsimp only
  split
  · exact h
  · exact allOK_catchHandler _ _ h

theorem allOK_step (env : Env) (s : EditorState) (c : Cmd)
    (h : s.events.all errFieldOK = true) :
    (step env s c).events.all errFieldOK = true := by
  cases c with
  | setText t => exact allOK_setYaml env s t h
  | setValue c? => exact allOK_setValueImpl env s c? h
  | uiConfigChanged cc => exact allOK_setValueImpl env s (some cc) h
  | toggleMode => exact allOK_setGUImode _ _ h
  | resume i =>
    show (resumePending env s i).events.all errFieldOK = true
    unfold resumePending
    split
    · exact h
    · exact allOK_resumeClass env _ _ h
    · exact allOK_resumeElement _ _ _ h

theorem allOK_foldl (env : Env) (cmds : List Cmd) :
    ∀ s : EditorState, s.events.all errFieldOK = true →
      ((cmds.foldl (step env) s).events.all errFieldOK) = true := by
  induction cmds with
  | nil => exact fun s h => h
  | cons c cs ih => exact fun s h => ih _ (allOK_step env s c h)

@[simp] theorem finallyLoad_loading (s : EditorState) : (finallyLoad s).loading = false := rfl

theorem catchHandler_warn_warning? (s : EditorState) (m : String)
    (h : jsStartsWith m warnTag = true) :
    (catchHandler s m).warning? = some (jsSubstrFrom m 8) := by
  simp [catchHandler, h]

theorem catchHandler_warn_error? (s : EditorState) (m : String)
    (h : jsStartsWith m warnTag = true) :
    (catchHandler s m).error? = s.error? := by
  simp [catchHandler, h]

theorem catchHandler_fatal_error? (s : EditorState) (m : String)
    (h : jsStartsWith m warnTag = false) :
    (catchHandler s m).error? = some (ErrVal.obj m) := by
  simp [catchHandler, h]

theorem catchHandler_fatal_warning? (s : EditorState) (m : String)
    (h : jsStartsWith m warnTag = false) :
    (catchHandler s m).warning? = s.warning? := by
  simp [catchHandler, h]

theorem acceptStep_config? (s : EditorState) : (acceptStep s).config? = s.config? := by
  unfold acceptStep
  split
  · simp [catchHandler_config?]
  · split
    · rfl
    · simp [catchHandler_config?]

theorem acceptStep_yaml? (s : EditorState) : (acceptStep s).yaml? = s.yaml? := by
  unfold acceptStep
  split
  · simp [catchHandler_yaml?]
  · split
    · rfl
    · simp [catchHandler_yaml?]

theorem updateStart_config? (s : EditorState) :
    (updateConfigElementStart s).config? = s.config? := by
  unfold updateConfigElementStart
  cases hc : s.config? with
  | none => exact hc
  | some cfg =>
    cases ht : cfg.type? with
    | none =>
      simp [ht, apply_ite (EditorState.config?), acceptStep_config?, catchHandler_config?]
    | some t =>
      simp [ht, apply_ite (EditorState.config?), acceptStep_config?, catchHandler_config?]

theorem updateStart_yaml? (s : EditorState) :
    (updateConfigElementStart s).yaml? = s.yaml? := by
  unfold updateConfigElementStart
  cases hc : s.config? with
  | none => rfl
  | some cfg =>
    cases ht : cfg.type? with
    | none =>
      simp [ht, apply_ite (EditorState.yaml?), acceptStep_yaml?, catchHandler_yaml?]
    | some t =>
      simp [ht, apply_ite (EditorState.yaml?), acceptStep_yaml?, catchHandler_yaml?]

theorem setConfigNotify_config? (s : EditorState) :
    (setConfigNotify s).config? = s.config? := by
  unfold setConfigNotify
  split
  · rfl
  · simp [updateStart_config?]

theorem setConfigNotify_yaml? (s : EditorState) :
    (setConfigNotify s).yaml? = s.yaml? := by
  unfold setConfigNotify
  split
  · rfl
  · simp [updateStart_yaml?]

/-- Every `_setConfig` call ends by firing exactly one change notification,
and that notification carries the `config`, `error` and `guiModeAvailable`
of the state at the moment it is fired. -/
theorem setConfigNotify_shape (s : EditorState) :
    ∃ pre, (setConfigNotify s).events =
      pre ++ [EditorEvent.configChanged (setConfigNotify s).config? (setConfigNotify s).error?
        (guiModeAvailable (setConfigNotify s))] := by
  unfold setConfigNotify
  split
  · exact ⟨s.events, rfl⟩
  · exact ⟨(updateConfigElementStart s).events, rfl⟩

theorem setYaml_count (env : Env) (s : EditorState) (t : String) :
    countConfigChanged (setYaml env s t).events = countConfigChanged s.events + 1 := by
  unfold setYaml
  split <;> exact setConfigNotify_count _

theorem setYaml_shape (env : Env) (s : EditorState) (t : String) :
    ∃ pre, (setYaml env s t).events =
      pre ++ [EditorEvent.configChanged (setYaml env s t).config? (setYaml env s t).error?
        (guiModeAvailable (setYaml env s t))] := by
  unfold setYaml
  split <;> exact setConfigNotify_shape _

theorem setValueImpl_count (env : Env) (s : EditorState) (c? : Option CardConfig)
    (h : valueGuard s c? = false) :
    countConfigChanged (setValueImpl env s c?).events = countConfigChanged s.events + 1 := by
  unfold setValueImpl
  split
  · next hg => exact absurd hg (by simp [h])
  · exact setConfigNotify_count _

theorem catchHandler_noType_error? (s : EditorState) :
    (catchHandler s noTypeMsg).error? = some (ErrVal.obj noTypeMsg) :=
  catchHandler_fatal_error? s noTypeMsg warnTag_noTypeMsg

theorem catchHandler_noType_warning? (s : EditorState) :
    (catchHandler s noTypeMsg).warning? = s.warning? :=
  catchHandler_fatal_warning? s noTypeMsg warnTag_noTypeMsg

theorem catchHandler_noEditor_warning? (s : EditorState) (t : String) :
    (catchHandler s (noEditorMsg t)).warning? = some (jsSubstrFrom (noEditorMsg t) 8) :=
  catchHandler_warn_warning? s (noEditorMsg t) (warnTag_noEditorMsg t)

theorem catchHandler_noEditor_error? (s : EditorState) (t : String) :
    (catchHandler s (noEditorMsg t)).error? = s.error? :=
  catchHandler_warn_error? s (noEditorMsg t) (warnTag_noEditorMsg t)

/-! ### Claim C1 -/

/-- C1, as stated, is false on the code: `guiModeAvailable` is computed as
`!(hasWarning || hasError)`, so it is `false` while a Warning is set even
though the Error State is not Error.  Concretely, reconciling a config with
no `type` on a fresh session sets only a warning (`_error` stays clear), yet
both the mode notification and the change notification of that turn carry
`guiModeAvailable = false`. -/
theorem C1_counterexample :
    (run demoEnv [Cmd.setValue (some cfgNoType)]).error? = none ∧
    (run demoEnv [Cmd.setValue (some cfgNoType)]).warning?.isSome = true ∧
    (run demoEnv [Cmd.setValue (some cfgNoType)]).events =
      [EditorEvent.guiModeChanged false false,
       EditorEvent.configChanged (some cfgNoType) none false] := by
  refine ⟨rfl, rfl, rfl⟩

/-- C1 (amended): the `guiModeAvailable` flag carried in change and mode
notifications is true iff the session has neither a Warning nor an Error
classification; a Warning alone already makes it false. -/
theorem C1_amended (s : EditorState) :
    guiModeAvailable s = true ↔ (s.warning? = none ∧ s.error? = none) := by
  unfold guiModeAvailable hasWarning hasError
  cases s.warning? <;> cases s.error? <;> simp

/-! ### Claim C2 -/

def cmdsC2 : List Cmd :=
  [Cmd.setValue (some cfgA), Cmd.resume 0, Cmd.resume 0,
   Cmd.setValue (some cfgB), Cmd.resume 0]

/-- C2, as stated, is false on the code: when the registry lookup fails, only
the *local* variable `configElement` is cleared, never `this._configElement`.
After mounting an editor for type `a` and reconciling to type `b` (for which
the registry has nothing), the previously mounted instance is still in the
slot and `_configElType` still records `a`. -/
theorem C2_counterexample :
    (run demoEnv cmdsC2).configElement?.map Editor.id = some 1 ∧
    (run demoEnv cmdsC2).configElType? = some typeA ∧
    (run demoEnv cmdsC2).warning? = some " No visual editor available for: b" ∧
    (run demoEnv cmdsC2).GUImode = false := by
  refine ⟨rfl, rfl, rfl, rfl⟩

/-- C2 (amended): on `NotFound`/`NoFormEditor` the previously mounted
instance is NOT destroyed (the slot and the recorded discriminator are left
unchanged); the Warning becomes the thrown message minus its first 8
characters, i.e. `" No visual editor available for: <d>"` (leading space,
capital N), Display Mode is forced to RAW, reconciliation stops (no new
suspension is queued) and the loading flag is cleared. -/
theorem C2_amended (env : Env) (s : EditorState) (t : String)
    (h : env.registry t = none ∨
      ∃ c, env.registry t = some c ∧ c.hasGetConfigElement = false) :
    (resumeClass env s t).configElement? = s.configElement? ∧
    (resumeClass env s t).configElType? = s.configElType? ∧
    (resumeClass env s t).warning? = some (jsSubstrFrom (noEditorMsg t) 8) ∧
    (resumeClass env s t).GUImode = false ∧
    (resumeClass env s t).pending = s.pending ∧
    (resumeClass env s t).loading = false := by
  unfold resumeClass
  rcases h with h | ⟨c, hc, hg⟩
  · rw [h]
    simp [catchHandler_configElement?, catchHandler_configElType?,
      catchHandler_noEditor_warning?, catchHandler_GUImode, catchHandler_pending]
  · rw [hc]
    simp [hg, catchHandler_configElement?, catchHandler_configElType?,
      catchHandler_noEditor_warning?, catchHandler_GUImode, catchHandler_pending]

/-- Witness for C2 (amended) at a concrete input. -/
theorem C2_witness :
    demoEnv.registry typeB = none ∧
    ((resumeClass demoEnv initState typeB).configElement? = initState.configElement? ∧
     (resumeClass demoEnv initState typeB).configElType? = initState.configElType? ∧
     (resumeClass demoEnv initState typeB).warning? = some (jsSubstrFrom (noEditorMsg typeB) 8) ∧
     (resumeClass demoEnv initState typeB).GUImode = false ∧
     (resumeClass demoEnv initState typeB).pending = initState.pending ∧
     (resumeClass demoEnv initState typeB).loading = false) :=
  ⟨rfl, C2_amended demoEnv initState typeB (Or.inl rfl)⟩

/-! ### Claim C3 -/

def cmdsC3 : List Cmd := [Cmd.setValue (some cfgX), Cmd.resume 0]

/-- C3, as stated, is false on the code: `_setConfig` does not await
`_updateConfigElement()`, so when reconciliation suspends at the registry
lookup the single change notification is fired before reconciliation
completes.  Concretely, setting a config of type `x` (unknown to the
registry) fires a change notification carrying `error = none` and
`guiModeAvailable = true`, while the completed reconciliation leaves a
Warning and `guiModeAvailable = false` — and no further change notification
is ever fired for that turn. -/
theorem C3_counterexample :
    (run demoEnv cmdsC3).events =
      [EditorEvent.configChanged (some cfgX) none true,
       EditorEvent.guiModeChanged false false] ∧
    (run demoEnv cmdsC3).warning? = some " No visual editor available for: x" ∧
    guiModeAvailable (run demoEnv cmdsC3) = false := by
  refine ⟨rfl, rfl, rfl⟩

/-- C3 (amended): every `setText`, and every `setConfig` that is not
swallowed by the deep-equality guard, fires exactly one change notification;
that notification is the last event fired by the synchronous part of the
call and carries the config, error and `guiModeAvailable` of the state at
that moment — i.e. the state after only the synchronous prefix of
reconciliation, not after its completion. -/
theorem C3_amended (env : Env) (s : EditorState) (t : String) :
    countConfigChanged (setYaml env s t).events = countConfigChanged s.events + 1 ∧
    (∃ pre, (setYaml env s t).events =
      pre ++ [EditorEvent.configChanged (setYaml env s t).config? (setYaml env s t).error?
        (guiModeAvailable (setYaml env s t))]) ∧
    ∀ c? : Option CardConfig, valueGuard s c? = false →
      countConfigChanged (setValueImpl env s c?).events = countConfigChanged s.events + 1 :=
  ⟨setYaml_count env s t, setYaml_shape env s t, fun c? h => setValueImpl_count env s c? h⟩

/-- Witness for C3 (amended) at a concrete input. -/
theorem C3_witness :
    valueGuard initState (some cfgA) = false ∧
    countConfigChanged (setValueImpl demoEnv initState (some cfgA)).events =
      countConfigChanged initState.events + 1 :=
  ⟨rfl, (C3_amended demoEnv initState badText).2.2 (some cfgA) rfl⟩

/-! ### Claim C4 -/

/-- C4, as stated, is false on the code: on a fresh session (no recorded
`_configElType`), a config with an absent discriminator compares equal to the
recorded `undefined` type (`undefined !== undefined` is false), so the
`No card type defined` throw is skipped and the failure instead surfaces in
the acceptance step as a TypeError, which the inner catch wraps into a
*Warning*; the error slot stays clear. -/
theorem C4_counterexample :
    (run demoEnv [Cmd.setValue (some cfgNoType)]).warning? =
      some " Cannot read properties of undefined" ∧
    (run demoEnv [Cmd.setValue (some cfgNoType)]).error? = none ∧
    (run demoEnv [Cmd.setValue (some cfgNoType)]).pending.isEmpty = true := by
  refine ⟨rfl, rfl, rfl⟩

/-- C4 (amended): only when the absent (or empty) discriminator differs from
the recorded mounted type does reconciliation fail fatally before any
registry lookup: `_error` is set to the `Error` object with message
`No card type defined` (the enclosing `_setConfig` later overwrites
`_error` with `undefined` before notifying), Display Mode is forced to RAW,
no warning is set and no lookup is queued.  When the recorded type equals
the absent discriminator (fresh session), the failure is classified as a
Warning instead (see the counterexample). -/
theorem C4_amended (s : EditorState) (cfg : CardConfig)
    (h1 : s.config? = some cfg)
    (h2 : cfg.type? = none ∨ cfg.type? = some "")
    (h3 : s.configElType? ≠ cfg.type?) :
    (updateConfigElementStart s).error? = some (ErrVal.obj noTypeMsg) ∧
    (updateConfigElementStart s).warning? = none ∧
    (updateConfigElementStart s).GUImode = false ∧
    (updateConfigElementStart s).pending = s.pending := by
  unfold updateConfigElementStart
  rcases h2 with h2 | h2 <;> rw [h2] at h3 <;>
    simp [h1, h2, h3, catchHandler_noType_error?, catchHandler_noType_warning?,
      catchHandler_GUImode, catchHandler_pending]

def c4state : EditorState :=
  { initState with config? := some cfgNoType, configElType? := some typeA }

/-- Witness for C4 (amended) at a concrete input. -/
theorem C4_witness :
    (c4state.config? = some cfgNoType ∧ c4state.configElType? ≠ cfgNoType.type?) ∧
    ((updateConfigElementStart c4state).error? = some (ErrVal.obj noTypeMsg) ∧
     (updateConfigElementStart c4state).warning? = none ∧
     (updateConfigElementStart c4state).GUImode = false ∧
     (updateConfigElementStart c4state).pending = c4state.pending) :=
  ⟨⟨rfl, by decide⟩, C4_amended c4state cfgNoType rfl (Or.inl rfl) (by decide)⟩

/-! ### Claim C5 -/

def cmdsC5 : List Cmd :=
  [Cmd.setValue (some cfgA), Cmd.resume 0, Cmd.resume 0, Cmd.setText badText]

/-- C5, as stated, is false on the code: a failing `setText` sets the fatal
error and the notification carries `guiModeAvailable = false`, but the yaml
setter never touches `_GUImode` and reconciliation is skipped entirely
(`if (!this._error)`), so Display Mode is NOT forced to RAW.  Concretely,
with an editor mounted for type `a` and the session in GUI mode, a failing
`setText` leaves `_GUImode = true`. -/
theorem C5_counterexample :
    (run demoEnv cmdsC5).GUImode = true ∧
    (run demoEnv cmdsC5).error? = some (ErrVal.str parseMsg) ∧
    (run demoEnv cmdsC5).configElement?.map Editor.id = some 1 := by
  refine ⟨rfl, rfl, rfl⟩

/-- C5 (amended): for every `setText` whose text fails to parse (with a
non-empty message), the Error State becomes the fatal parse error, the
emitted change notification carries `guiModeAvailable = false` and the
pre-failure config, but Display Mode is left unchanged — even if a form
editor was previously mounted and the session was in GUI mode. -/
theorem C5_amended (env : Env) (s : EditorState) (t m : String)
    (hp : env.parse t = Except.error m) (hm : m ≠ "") :
    (setYaml env s t).error? = some (ErrVal.str m) ∧
    (setYaml env s t).GUImode = s.GUImode ∧
    (setYaml env s t).events = s.events ++
      [EditorEvent.configChanged s.config? (some (ErrVal.str m)) false] := by
  unfold setYaml
  rw [hp]
  unfold setConfigNotify
  have ht : errTruthy (some (ErrVal.str m)) = true := by
    simp [errTruthy, hm]
  simp [ht, fireConfigChanged, guiModeAvailable, hasWarning, hasError]

/-- Witness for C5 (amended) at a concrete input. -/
theorem C5_witness :
    (demoEnv.parse badText = Except.error parseMsg ∧ parseMsg ≠ "") ∧
    ((setYaml demoEnv initState badText).error? = some (ErrVal.str parseMsg) ∧
     (setYaml demoEnv initState badText).GUImode = initState.GUImode ∧
     (setYaml demoEnv initState badText).events = initState.events ++
       [EditorEvent.configChanged initState.config? (some (ErrVal.str parseMsg)) false]) :=
  ⟨⟨rfl, by decide⟩, C5_amended demoEnv initState badText parseMsg rfl (by decide)⟩

/-! ### Claim C6 -/

/-- C6: for every `setText` whose text fails to parse (with a non-empty
message, per the Serialization Adapter contract of a human-readable
message), the Error State is set to Error carrying the message of the
parser, the previous Config is left unchanged, and the stored text is the
just-typed invalid text. -/
theorem C6_theorem (env : Env) (s : EditorState) (t m : String)
    (hp : env.parse t = Except.error m) (hm : m ≠ "") :
    (setYaml env s t).config? = s.config? ∧
    (setYaml env s t).error? = some (ErrVal.str m) ∧
    (setYaml env s t).yaml? = some t := by
  unfold setYaml
  rw [hp]
  unfold setConfigNotify
  have ht : errTruthy (some (ErrVal.str m)) = true := by
    simp [errTruthy, hm]
  simp [ht, fireConfigChanged]

def c6state : EditorState := run demoEnv [Cmd.setValue (some cfgA)]

/-- Witness for C6 at a concrete input: the last-known-good Config of type
`a` stays readable while the invalid text is stored. -/
theorem C6_witness :
    (demoEnv.parse badText = Except.error parseMsg ∧ parseMsg ≠ "") ∧
    ((setYaml demoEnv c6state badText).config? = c6state.config? ∧
     (setYaml demoEnv c6state badText).error? = some (ErrVal.str parseMsg) ∧
     (setYaml demoEnv c6state badText).yaml? = some badText) :=
  ⟨⟨rfl, by decide⟩, C6_theorem demoEnv c6state badText parseMsg rfl (by decide)⟩

/-! ### Claim C7 -/

def cmdsC7 : List Cmd :=
  [Cmd.setValue (some cfgA), Cmd.setValue (some cfgB), Cmd.resume 0, Cmd.resume 1]

/-- C7, as stated, is false on the code: no staleness check is performed
before committing the bind.  Set type `a` (suspends), then type `b`
(suspends), then let the two awaits of the `a` reconciliation resolve: the
stale resolution for `a` commits, leaving `_configElType = "a"` and the
editor instance for `a` mounted while the current discriminator is `b`. -/
theorem C7_counterexample :
    (run demoEnv cmdsC7).config? = some cfgB ∧
    (run demoEnv cmdsC7).configElType? = some typeA ∧
    (run demoEnv cmdsC7).configElement?.map Editor.id = some 1 := by
  refine ⟨rfl, rfl, rfl⟩

/-- C7 (amended): a resolved editor-class load for discriminator `t` always
commits its bind — the mounted instance becomes the freshly produced element
and the recorded discriminator becomes `t` — even when the current config
meanwhile carries a different discriminator `u ≠ t`. -/
theorem C7_amended (s : EditorState) (t : String) (c : ElClass) (cfg : CardConfig) (u : String)
    (h1 : s.config? = some cfg) (h2 : cfg.type? = some u) (h3 : u ≠ t) :
    (resumeElement s t c).configElType? = some t ∧
    (resumeElement s t c).configElement? = some c.makeEditor := by
  unfold resumeElement
  dsimp only
  constructor <;> cases hcase : c.makeEditor.accepts s.config? <;>
    simp [hcase, catchHandler_configElType?, catchHandler_configElement?]

def c7state : EditorState := { initState with config? := some cfgB }

/-- Witness for C7 (amended) at a concrete input. -/
theorem C7_witness :
    (c7state.config? = some cfgB ∧ cfgB.type? = some typeB ∧ typeB ≠ typeA) ∧
    ((resumeElement c7state typeA clsA).configElType? = some typeA ∧
     (resumeElement c7state typeA clsA).configElement? = some clsA.makeEditor) :=
  ⟨⟨rfl, rfl, by decide⟩, C7_amended c7state typeA clsA cfgB typeB rfl rfl (by decide)⟩

/-! ### Claim C8 -/

/-- C8: calling `setConfig` with a config deeply equal to the current Config
is a no-op; starting from a state whose Config differs from `c`, calling
`setConfig c` twice fires exactly one change notification in total and the
second call returns the state completely unchanged. -/
theorem C8_theorem (env : Env) (s : EditorState) (c : CardConfig)
    (h : s.config? ≠ some c) :
    setValueImpl env (setValueImpl env s (some c)) (some c) = setValueImpl env s (some c) ∧
    countConfigChanged (setValueImpl env s (some c)).events = countConfigChanged s.events + 1 := by
  have hg : valueGuard s (some c) = false := by
    unfold valueGuard
    cases hc : s.config? with
    | none => rfl
    | some cur =>
      simp only [beq_eq_false_iff_ne, ne_eq, Option.some.injEq]
      intro he
      exact h (by rw [hc, he])
  have hnoop : ∀ s1 : EditorState, s1.config? = some c →
      setValueImpl env s1 (some c) = s1 := by
    intro s1 h1
    unfold setValueImpl
    have hgt : valueGuard s1 (some c) = true := by
      unfold valueGuard
      rw [h1]
      simp
    rw [if_pos hgt]
  have hcfg : (setValueImpl env s (some c)).config? = some c := by
    unfold setValueImpl
    rw [hg]
    simp [setConfigNotify_config?]
  exact ⟨hnoop _ hcfg, setValueImpl_count env s (some c) hg⟩

/-- Witness for C8 at a concrete input. -/
theorem C8_witness :
    initState.config? ≠ some cfgA ∧
    (setValueImpl demoEnv (setValueImpl demoEnv initState (some cfgA)) (some cfgA) =
        setValueImpl demoEnv initState (some cfgA) ∧
     countConfigChanged (setValueImpl demoEnv initState (some cfgA)).events =
        countConfigChanged initState.events + 1) :=
  ⟨by decide, C8_theorem demoEnv initState cfgA (by decide)⟩

/-! ### Claim C9 -/

/-- C9: in every change notification emitted during any session against any
environment, the `error` field is absent or a string — never the `Error`
object that `_updateConfigElement` can store in `_error` (that value is
always overwritten with `undefined` by `_setConfig` before the notification
fires). -/
theorem C9_theorem (env : Env) (cmds : List Cmd) :
    ((run env cmds).events.all errFieldOK) = true :=
  allOK_foldl env cmds initState rfl

/-! ### Claim C10 -/

/-- C10: the deep-equality guard only applies when a current Config exists
(`if (this._config && ...)`), so with Config `undefined` every `setConfig`
call — including `setConfig(undefined)` — replaces the Config, re-derives
the text via `safeDump`, and fires another change notification. -/
theorem C10_theorem (env : Env) (s : EditorState) (c? : Option CardConfig)
    (h : s.config? = none) :
    (setValueImpl env s c?).config? = c? ∧
    (setValueImpl env s c?).yaml? = some (env.stringify c?) ∧
    countConfigChanged (setValueImpl env s c?).events = countConfigChanged s.events + 1 := by
  have hg : valueGuard s c? = false := by
    unfold valueGuard
    rw [h]
  refine ⟨?_, ?_, setValueImpl_count env s c? hg⟩
  · unfold setValueImpl
    rw [hg]
    simp [setConfigNotify_config?]
  · unfold setValueImpl
    rw [hg]
    simp [setConfigNotify_yaml?]

/-- Witness for C10 at a concrete input: `setConfig(undefined)` on a fresh
session is not a no-op. -/
theorem C10_witness :
    initState.config? = none ∧
    ((setValueImpl demoEnv initState none).config? = none ∧
     (setValueImpl demoEnv initState none).yaml? = some (demoEnv.stringify none) ∧
     countConfigChanged (setValueImpl demoEnv initState none).events =
       countConfigChanged initState.events + 1) :=
  ⟨rfl, C10_theorem demoEnv initState none rfl⟩

end HuiCardEditor
